import Mathlib

/-!
Shallow embedding of the authentication core of the PythonApiRest service
(files `config.py`, `crud.py`, `database.py`, `main.py`, `schemas.py`).
The credential hasher and token service (`security.py`) and the user record
(`models.py`) are not part of the provided sources; they are modelled from
the specification and marked as such in their doc comments.
-/

namespace ApiRest

/-- Modelled from the spec: the opaque `hash_value` produced by the credential
hasher (4.1) — a salted one-way transform.  `security.py` and `models.py` are
not among the provided sources, so the hash value is modelled as a record of
the salt and a digest of the plaintext mixed with that salt. -/
structure HashValue where
  salt : Nat
  digest : Nat
deriving DecidableEq, Repr

/-- Auxiliary numeric code of a string, used by the modelled digest and the
modelled token signature. -/
def strCode (s : String) : Nat :=
  s.toList.foldl (fun a c => a * 131 + c.toNat + 1) 7

/-- Modelled from the spec: the slow digest inside the credential hasher,
stood in by a concrete computable mixing function. -/
def pwDigest (salt : Nat) (pw : String) : Nat :=
  (strCode pw * 2654435761 + salt * 40503 + 11) % (2 ^ 64)

/-- Modelled from the spec: `hash(plaintext) -> hash_value` of 4.1
(`get_password_hash` in `security.py`, which is not among the provided
sources).  The salt, drawn non-deterministically at rest in the source, is an
explicit argument here. -/
def get_password_hash (salt : Nat) (pw : String) : HashValue :=
  { salt := salt, digest := pwDigest salt pw }

/-- Modelled from the spec: `verify(plaintext, hash_value) -> boolean` of 4.1
(`verify_password` in `security.py`): true iff the plaintext, hashed with the
parameters embedded in the hash value, matches. -/
def verify_password (pw : String) (hv : HashValue) : Bool :=
  pwDigest hv.salt pw == hv.digest

/-- The claim set carried by a token: subject, issued-at, expiry
(epoch seconds). -/
structure Claims where
  sub : String
  iat : Nat
  exp : Nat
deriving DecidableEq, Repr

/-- Modelled from the spec: the signature over a claim set under the signing
secret (the fixed symmetric algorithm of 4.2), stood in by a concrete
computable mixing function. -/
def signClaims (secret : String) (c : Claims) : Nat :=
  ((strCode secret * 1000003 + strCode c.sub) * 1000003 + c.iat) * 1000003 + c.exp

/-- A structurally well-formed signed token: claim set plus signature. -/
structure Jwt where
  claims : Claims
  signature : Nat
deriving DecidableEq, Repr

/-- A token as received on the wire: either structurally well formed or
malformed (undecodable). -/
inductive TokenWire where
  | signed (t : Jwt)
  | malformed (raw : String)
deriving DecidableEq, Repr

/-- A caller-visible error: HTTP status code, detail, and extra headers —
the shape of `HTTPException(status_code=..., detail=..., headers=...)`. -/
structure ApiError where
  statusCode : Nat
  detail : String
  headers : List (String × String)
deriving DecidableEq, Repr

/-- Modelled from the spec: `issue(subject, ttl)` of 4.2
(`create_access_token` in `security.py`, which is not among the provided
sources): claim set `\x7bsub, iat: now, exp: now + ttl\x7d`, signed with the
secret.  `expires_delta` is in seconds. -/
def create_access_token (secret : String) (sub : String) (expires_delta : Nat)
    (now : Nat) : Jwt :=
  let c : Claims := { sub := sub, iat := now, exp := now + expires_delta }
  { claims := c, signature := signClaims secret c }

/-- Modelled from the spec: the single rejection outcome of `decode` (4.2),
surfaced to the caller as an Unauthorized (401) error. -/
def invalidTokenError : ApiError :=
  { statusCode := 401, detail := "InvalidToken", headers := [] }

/-- Modelled from the spec: `decode(token) -> claims` of 4.2 (`decode_token`
in `security.py`): parse, verify the signature, verify `exp > now`; fail with
the one `InvalidToken` outcome when the structure is malformed, the signature
does not verify, or the expiry has passed. -/
def decode_token (secret : String) (now : Nat) (w : TokenWire) :
    Except ApiError Claims :=
  match w with
  | .malformed _ => .error invalidTokenError
  | .signed t =>
    if t.signature == signClaims secret t.claims then
      if now < t.claims.exp then .ok t.claims
      else .error invalidTokenError
    else .error invalidTokenError

/-- Modelled from the spec: the persisted User record (`UserModel` in
`models.py`, which is not among the provided sources): numeric id assigned by
the store, email, username, password hash, active flag. -/
structure UserModel where
  id : Nat
  email : String
  username : String
  hashed_password : HashValue
  is_active : Bool
deriving DecidableEq, Repr

/-- The store-level failure surfaced by a commit (`SQLAlchemyError`), with the
uniqueness-constraint violation distinguishable, as §6 requires of the
store. -/
inductive SqlError where
  | uniqueViolation
  | otherError
deriving DecidableEq, Repr

/-- The message text of a store failure (`str(e)` in `crud.py`). -/
def SqlError.msg : SqlError → String
  | .uniqueViolation => "UNIQUE constraint failed"
  | .otherError => "database error"

/-- A SQLAlchemy session: committed rows, rows added but not yet committed,
the next store-assigned id, and an explicit fault oracle telling whether the
next commit fails (read queries are modelled as non-failing). -/
structure Session where
  rows : List UserModel
  pending : List UserModel
  nextId : Nat
  commitFault : Option SqlError
deriving DecidableEq, Repr

/-- `db.add(obj)`: stage a row, not yet durable. -/
def Session.add (db : Session) (u : UserModel) : Session :=
  { db with pending := db.pending ++ [u] }

/-- `db.commit()`: atomically make the staged rows durable, or fail as the
fault oracle dictates, leaving the committed rows untouched. -/
def Session.commit (db : Session) : Except SqlError Session :=
  match db.commitFault with
  | some e => .error e
  | none => .ok { db with rows := db.rows ++ db.pending, pending := [] }

/-- `db.rollback()`: discard the staged rows. -/
def Session.rollback (db : Session) : Session :=
  { db with pending := [] }

/-- `crud.get_user_by_email`: first committed row with this email. -/
def get_user_by_email (db : Session) (email : String) : Option UserModel :=
  db.rows.find? (fun u => u.email == email)

/-- `crud.get_user_by_username`: first committed row with this username. -/
def get_user_by_username (db : Session) (username : String) : Option UserModel :=
  db.rows.find? (fun u => u.username == username)

/-- The `user_data` dict handed to `crud.create_user`. -/
structure UserData where
  email : String
  username : String
  hashed_password : HashValue
  is_active : Bool
deriving DecidableEq, Repr

/-- `crud.create_user`: build the row, `add`, `commit`; on `SQLAlchemyError`
roll back and raise HTTP 500 `"Error al crear el usuario: ..."`.  Returns the
result together with the final session. -/
def create_user (db : Session) (user_data : UserData) :
    Except ApiError UserModel × Session :=
  let db_user : UserModel :=
    { id := db.nextId, email := user_data.email, username := user_data.username,
      hashed_password := user_data.hashed_password,
      is_active := user_data.is_active }
  let db1 := db.add db_user
  match db1.commit with
  | .ok db2 => (.ok db_user, { db2 with nextId := db2.nextId + 1 })
  | .error e =>
    (.error { statusCode := 500, detail := "Error al crear el usuario: " ++ e.msg,
              headers := [] },
     db1.rollback)

/-- `schemas.UserCreate`: email, username, plaintext password. -/
structure UserCreate where
  email : String
  username : String
  password : String
deriving DecidableEq, Repr

/-- `schemas.UserResponse`: the caller-visible user shape — email, username,
id, active flag, and nothing else. -/
structure UserResponse where
  email : String
  username : String
  id : Nat
  is_active : Bool
deriving DecidableEq, Repr

/-- FastAPI serialization of a `UserModel` through
`response_model=UserResponse`: only the declared fields are kept. -/
def toUserResponse (u : UserModel) : UserResponse :=
  { email := u.email, username := u.username, id := u.id,
    is_active := u.is_active }

/-- `schemas.Token`: the login response body. -/
structure TokenResponse where
  access_token : Jwt
  token_type : String
deriving DecidableEq, Repr

/-- `config.Settings`, with its default values. -/
structure Settings where
  SECRET_KEY : String := "90de4293c01e469715d923460159ddb92c2f17730a4e373104566b3aab828e235c713fd6f0a9e2c6205c85f782c70e288d5443d6209170be87d4886ae6f9b4cb33cac5cd9186860c9cf1353a77d8131676c5877f0ee6d8c363774f985cc8823f3c193d769682e6e04e1a92c168d33c6bd82c037e9f246e1a6fa413d7abc2f04d57dff20b347891badb37b28f9ea4a8a10d1bebc43cd05e0fea689264681adfba960f22d88d03e25f639d66ffdaa9de7dd76fef07639dde8dc52fffb7043241ccb8ccf42911f52e76dfbcdd04b41042f04f5fbefdd4eea107bd72b09d5b44ce175b79ff9b7639fb058d95fd9e59d188d0e2c3065d487632d6bfe1fa3248519e34"
  ALGORITHM : String := "HS256"
  ACCESS_TOKEN_EXPIRE_MINUTES : Nat := 30
  DATABASE_URL : String := "sqlite:///./database/sql_app.db"
deriving Repr

/-- `config.settings`: the process-wide configuration instance (defaults, no
`.env` overrides). -/
def settings : Settings := {}

/-- `main.register_user`: duplicate-email check, duplicate-username check,
hash, persist.  The hasher (in the absent `security.py`) is a parameter. -/
def register_user (hashFn : String → HashValue) (user : UserCreate)
    (db : Session) : Except ApiError UserModel × Session :=
  match get_user_by_email db user.email with
  | some _ =>
    (.error { statusCode := 400, detail := "Email ya registrado", headers := [] },
     db)
  | none =>
    match get_user_by_username db user.username with
    | some _ =>
      (.error { statusCode := 400, detail := "Nombre de usuario ya registrado",
                headers := [] },
       db)
    | none =>
      let hashed_password := hashFn user.password
      create_user db
        { email := user.email, username := user.username,
          hashed_password := hashed_password, is_active := true }

/-- The one error raised by `main.login` on any credential failure:
`HTTP 401, "Credenciales incorrectas", WWW-Authenticate: Bearer`. -/
def invalidCredentialsError : ApiError :=
  { statusCode := 401, detail := "Credenciales incorrectas",
    headers := [("WWW-Authenticate", "Bearer")] }

/-- `main.login`: look up by email; if absent, or if the password does not
verify, raise the single `invalidCredentialsError`; otherwise issue a token
with subject = the user's email and the configured TTL.  The verifier (in the
absent `security.py`) is a parameter. -/
def login (verifyFn : String → HashValue → Bool) (cfg : Settings) (now : Nat)
    (user_credentials : UserCreate) (db : Session) :
    Except ApiError TokenResponse :=
  match get_user_by_email db user_credentials.email with
  | none => .error invalidCredentialsError
  | some user =>
    if verifyFn user_credentials.password user.hashed_password then
      let access_token :=
        create_access_token cfg.SECRET_KEY user.email
          (cfg.ACCESS_TOKEN_EXPIRE_MINUTES * 60) now
      .ok { access_token := access_token, token_type := "bearer" }
    else .error invalidCredentialsError

/-- `main.get_current_user`: decode the bearer token (a decode failure
propagates to the caller unchanged); look up the subject; if absent raise
`HTTP 401, "Usuario no encontrado"`. -/
def get_current_user (secret : String) (now : Nat) (credentials : TokenWire)
    (db : Session) : Except ApiError UserModel :=
  match decode_token secret now credentials with
  | .error e => .error e
  | .ok payload =>
    match get_user_by_email db payload.sub with
    | none =>
      .error { statusCode := 401, detail := "Usuario no encontrado",
               headers := [] }
    | some user => .ok user

/-- `main.read_users_me`: returns the authenticated user, serialized through
`response_model=UserResponse`. -/
def read_users_me (current_user : UserModel) : UserResponse :=
  toUserResponse current_user

/-- The caller-visible result of the `/register` endpoint: `register_user`
serialized through `response_model=UserResponse`. -/
def register_response (hashFn : String → HashValue) (user : UserCreate)
    (db : Session) : Except ApiError UserResponse × Session :=
  let (r, s) := register_user hashFn user db
  (r.map toUserResponse, s)

/-- The caller-visible result of the `/users/me` endpoint. -/
def me_response (secret : String) (now : Nat) (credentials : TokenWire)
    (db : Session) : Except ApiError UserResponse :=
  (get_current_user secret now credentials db).map toUserResponse

/-- The session handle as seen after `DatabaseManager.get_db` finishes: the
final session state and whether `close()` ran. -/
structure SessionHandle where
  sess : Session
  closed : Bool
deriving DecidableEq, Repr

/-- `DatabaseManager.get_db`: create a session, run the request body on it
(the body may finish with a result or with an error), and close the session
in the `finally` block on either exit path. -/
def get_db {α : Type} (db0 : Session)
    (body : Session → Except ApiError α × Session) :
    Except ApiError α × SessionHandle :=
  let opened : SessionHandle := { sess := db0, closed := false }
  match body opened.sess with
  | (.ok r, s1) => (.ok r, { sess := s1, closed := true })
  | (.error e, s1) => (.error e, { sess := s1, closed := true })

/-! ### Shared concrete fixtures for witnesses -/

/-- A concrete registered user for witness instantiations. -/
def wAlice : UserModel :=
  { id := 1, email := "a@x.com", username := "alice",
    hashed_password := get_password_hash 3 "pw1", is_active := true }

/-- A concrete healthy session holding just `wAlice`. -/
def wDb : Session :=
  { rows := [wAlice], pending := [], nextId := 2, commitFault := none }

/-- A concrete empty session whose next commit fails with a
uniqueness-constraint violation. -/
def wDbUnique : Session :=
  { rows := [], pending := [], nextId := 1,
    commitFault := some SqlError.uniqueViolation }

/-- A concrete empty session whose next commit fails with a generic store
error. -/
def wDbFault : Session :=
  { rows := [], pending := [], nextId := 1,
    commitFault := some SqlError.otherError }

/-- A concrete empty healthy session. -/
def wDbEmpty : Session :=
  { rows := [], pending := [], nextId := 1, commitFault := none }

/-! ### Claims -/

/-- C1: for every database state, a login with an email matching no stored
user and a login with a stored user's email but a password the verifier
rejects both produce the very same caller-visible error value — the one
`invalidCredentialsError` (same status, detail and headers) — revealing
neither which check failed nor whether the email exists. -/
theorem c1_login_failures_indistinguishable
    (verifyFn : String → HashValue → Bool) (cfg : Settings) (now : Nat)
    (db : Session) (cA cB : UserCreate) (u : UserModel)
    (hA : get_user_by_email db cA.email = none)
    (hB : get_user_by_email db cB.email = some u)
    (hv : verifyFn cB.password u.hashed_password = false) :
    login verifyFn cfg now cA db = .error invalidCredentialsError ∧
    login verifyFn cfg now cB db = .error invalidCredentialsError := by
  constructor
  · simp [login, hA]
  · simp [login, hB, hv]

/-- C1 witness: the theorem applied to a concrete session holding one user,
with an unknown email on one side and a wrong password on the other. -/
theorem c1_witness :
    login verify_password {} 1000 ⟨"b@x.com", "bob", "pw"⟩ wDb
      = .error invalidCredentialsError ∧
    login verify_password {} 1000 ⟨"a@x.com", "alice", "bad"⟩ wDb
      = .error invalidCredentialsError :=
  c1_login_failures_indistinguishable verify_password {} 1000 wDb
    ⟨"b@x.com", "bob", "pw"⟩ ⟨"a@x.com", "alice", "bad"⟩ wAlice
    (by decide) (by decide) (by decide)

/-- Every failure of the modelled `decode` is the single
`invalidTokenError`. -/
theorem decode_token_error_unique (secret : String) (now : Nat)
    (w : TokenWire) (e : ApiError)
    (he : decode_token secret now w = .error e) : e = invalidTokenError := by
  cases w with
  | malformed raw =>
    simp [decode_token] at he
    exact he.symm
  | signed t =>
    by_cases hs : t.signature = signClaims secret t.claims
    · by_cases hn : now < t.claims.exp
      · simp [decode_token, hs, hn] at he
      · simp [decode_token, hs, hn] at he
        exact he.symm
    · simp [decode_token, hs] at he
      exact he.symm

/-- C2 counterexample: two concrete rejected calls with different
caller-visible outcomes.  An expired token is rejected with the decode
failure's single `invalidTokenError`, while a live token whose subject
matches no stored user is rejected with `HTTP 401, "Usuario no encontrado"`
("user not found", `main.py`) — the same status but a different detail, so
the two failure cases are distinguishable to the caller, refuting the claimed
single indistinguishable outcome. -/
theorem c2_counterexample :
    get_current_user "sec" 1000
        (.signed (create_access_token "sec" "a@x.com" 60 0)) wDb
      = .error invalidTokenError ∧
    get_current_user "sec" 1000
        (.signed (create_access_token "sec" "g@x.com" 60 1000)) wDb
      = .error { statusCode := 401, detail := "Usuario no encontrado",
                 headers := [] } ∧
    invalidTokenError
      ≠ { statusCode := 401, detail := "Usuario no encontrado",
          headers := [] } := by
  refine ⟨rfl, rfl, by decide⟩

/-- C2 amended: resolving the current user rejects in all three failure
cases, each rejection carrying the Unauthorized status 401 — the token does
not decode (malformed, bad signature, or expired: the decode failure
propagates and is the one 401 `invalidTokenError`), or the subject matches no
stored user (a 401 with detail `"Usuario no encontrado"`); in particular a
well-formed token whose expiry has elapsed is rejected with a 401 error
whatever the database holds.  Uniformity holds at the status level only: the
caller-visible detail distinguishes "user not found" from a decode
failure. -/
theorem c2_resolve_current_user_unauthorized
    (secret : String) (now : Nat) (w : TokenWire) (db : Session) :
    (∀ e, decode_token secret now w = .error e →
      get_current_user secret now w db = .error e ∧ e.statusCode = 401) ∧
    (∀ c, decode_token secret now w = .ok c →
      get_user_by_email db c.sub = none →
      get_current_user secret now w db
        = .error { statusCode := 401, detail := "Usuario no encontrado",
                   headers := [] }) ∧
    (∀ t, w = .signed t → t.claims.exp ≤ now →
      get_current_user secret now w db = .error invalidTokenError) := by
  refine ⟨?_, ?_, ?_⟩
  · intro e he
    refine ⟨by simp [get_current_user, he], ?_⟩
    have hu := decode_token_error_unique secret now w e he
    subst hu
    rfl
  · intro c hc hu
    simp [get_current_user, hc, hu]
  · intro t hw hexp
    subst hw
    have hd : decode_token secret now (.signed t) = .error invalidTokenError := by
      by_cases hs : t.signature = signClaims secret t.claims
      · simp [decode_token, hs, Nat.not_lt.mpr hexp]
      · simp [decode_token, hs]
    simp [get_current_user, hd]

/-- C2 witness: the theorem applied to a concrete token that expired at 60,
resolved at time 1000. -/
theorem c2_witness :
    get_current_user "sec" 1000
      (.signed (create_access_token "sec" "a@x.com" 60 0)) wDb
      = .error invalidTokenError :=
  (c2_resolve_current_user_unauthorized "sec" 1000
    (.signed (create_access_token "sec" "a@x.com" 60 0)) wDb).2.2
    (create_access_token "sec" "a@x.com" 60 0) rfl (by decide)

/-- C3: registration checks the email first — if a user with that email
exists the result is the DuplicateEmail error (HTTP 400
`"Email ya registrado"`) whatever the username situation, and otherwise a
taken username gives the DuplicateUsername error (HTTP 400
`"Nombre de usuario ya registrado"`); in both rejection cases the session is
returned unchanged, so no user is created. -/
theorem c3_register_duplicate_checks
    (hashFn : String → HashValue) (user : UserCreate) (db : Session) :
    (∀ u, get_user_by_email db user.email = some u →
      register_user hashFn user db
        = (.error { statusCode := 400, detail := "Email ya registrado",
                    headers := [] }, db)) ∧
    (get_user_by_email db user.email = none →
     ∀ u, get_user_by_username db user.username = some u →
      register_user hashFn user db
        = (.error { statusCode := 400,
                    detail := "Nombre de usuario ya registrado",
                    headers := [] }, db)) := by
  constructor
  · intro u hu
    simp [register_user, hu]
  · intro he u hu
    simp [register_user, he, hu]

/-- C3 witness: registering `wAlice`'s email with her username also taken
yields DuplicateEmail; a fresh email with her username yields
DuplicateUsername; the session is unchanged both times. -/
theorem c3_witness :
    register_user (get_password_hash 0) ⟨"a@x.com", "alice", "pw2"⟩ wDb
      = (.error { statusCode := 400, detail := "Email ya registrado",
                  headers := [] }, wDb) ∧
    register_user (get_password_hash 0) ⟨"b@x.com", "alice", "pw2"⟩ wDb
      = (.error { statusCode := 400,
                  detail := "Nombre de usuario ya registrado",
                  headers := [] }, wDb) :=
  ⟨(c3_register_duplicate_checks (get_password_hash 0)
      ⟨"a@x.com", "alice", "pw2"⟩ wDb).1 wAlice (by decide),
   (c3_register_duplicate_checks (get_password_hash 0)
      ⟨"b@x.com", "alice", "pw2"⟩ wDb).2 (by decide) wAlice (by decide)⟩

/-- C4: when both duplicate checks pass and the store's commit fails,
registration surfaces the StorageError (HTTP 500
`"Error al crear el usuario: ..."`), and the final session has the committed
rows unchanged and nothing pending — the insert was rolled back, no partial
record remains. -/
theorem c4_store_failure_atomic
    (hashFn : String → HashValue) (user : UserCreate) (db : Session)
    (e : SqlError)
    (h1 : get_user_by_email db user.email = none)
    (h2 : get_user_by_username db user.username = none)
    (hf : db.commitFault = some e) :
    register_user hashFn user db
      = (.error { statusCode := 500,
                  detail := "Error al crear el usuario: " ++ e.msg,
                  headers := [] },
         { db with pending := [] }) := by
  simp [register_user, h1, h2, create_user, Session.add, Session.commit, hf,
    Session.rollback]

/-- C4 witness: the theorem applied to a concrete empty session whose commit
fails; the final session keeps no trace of the attempted row. -/
theorem c4_witness :
    register_user (get_password_hash 0) ⟨"a@x.com", "alice", "pw"⟩ wDbFault
      = (.error { statusCode := 500,
                  detail := "Error al crear el usuario: database error",
                  headers := [] },
         { wDbFault with pending := [] }) :=
  c4_store_failure_atomic (get_password_hash 0) ⟨"a@x.com", "alice", "pw"⟩
    wDbFault SqlError.otherError (by decide) (by decide) (by decide)

/-- C5 counterexample: on a concrete session whose insert hits a
uniqueness-constraint violation after both pre-checks passed, the core
returns the generic StorageError (HTTP 500), whose status differs from the
400 of the duplicate rejections — not the DuplicateEmail/DuplicateUsername
rejection the claim requires. -/
theorem c5_counterexample :
    (register_user (get_password_hash 0) ⟨"a@x.com", "alice", "pw"⟩
        wDbUnique).1
      = .error { statusCode := 500,
                 detail := "Error al crear el usuario: UNIQUE constraint failed",
                 headers := [] } ∧
    (500 : Nat) ≠ 400 := by
  exact ⟨rfl, by decide⟩

/-- C5 amended: when the store's insert surfaces a uniqueness-constraint
violation past the pre-checks, `create_user` catches it like any other
`SQLAlchemyError` and the core returns the generic StorageError (HTTP 500,
`"Error al crear el usuario: ..."`) — the violation is not mapped back to the
DuplicateEmail/DuplicateUsername rejection. -/
theorem c5_unique_violation_gives_storage_error
    (hashFn : String → HashValue) (user : UserCreate) (db : Session)
    (h1 : get_user_by_email db user.email = none)
    (h2 : get_user_by_username db user.username = none)
    (hf : db.commitFault = some SqlError.uniqueViolation) :
    (register_user hashFn user db).1
      = .error { statusCode := 500,
                 detail := "Error al crear el usuario: "
                   ++ SqlError.uniqueViolation.msg,
                 headers := [] } := by
  simp [register_user, h1, h2, create_user, Session.add, Session.commit, hf]

/-- C5 amended witness: the amended theorem applied to the concrete
uniqueness-violation session. -/
theorem c5_witness :
    (register_user (get_password_hash 7) ⟨"b@x.com", "bob", "pw"⟩
        wDbUnique).1
      = .error { statusCode := 500,
                 detail := "Error al crear el usuario: "
                   ++ SqlError.uniqueViolation.msg,
                 headers := [] } :=
  c5_unique_violation_gives_storage_error (get_password_hash 7)
    ⟨"b@x.com", "bob", "pw"⟩ wDbUnique (by decide) (by decide) (by decide)

/-- C6: a login whose email is found and whose password verifies returns a
bearer token issued with subject = the stored user's email and expiry = now
plus the configured TTL (`ACCESS_TOKEN_EXPIRE_MINUTES` minutes), and the
configured default of that TTL is 30 minutes. -/
theorem c6_login_success_token
    (verifyFn : String → HashValue → Bool) (cfg : Settings) (now : Nat)
    (creds : UserCreate) (db : Session) (u : UserModel)
    (h1 : get_user_by_email db creds.email = some u)
    (h2 : verifyFn creds.password u.hashed_password = true) :
    login verifyFn cfg now creds db
      = .ok { access_token :=
                create_access_token cfg.SECRET_KEY u.email
                  (cfg.ACCESS_TOKEN_EXPIRE_MINUTES * 60) now,
              token_type := "bearer" } ∧
    (create_access_token cfg.SECRET_KEY u.email
        (cfg.ACCESS_TOKEN_EXPIRE_MINUTES * 60) now).claims.sub = u.email ∧
    (create_access_token cfg.SECRET_KEY u.email
        (cfg.ACCESS_TOKEN_EXPIRE_MINUTES * 60) now).claims.exp
      = now + cfg.ACCESS_TOKEN_EXPIRE_MINUTES * 60 ∧
    settings.ACCESS_TOKEN_EXPIRE_MINUTES = 30 := by
  refine ⟨?_, rfl, rfl, rfl⟩
  simp [login, h1, h2]

/-- C6 witness: the theorem applied to `wAlice` with her correct password
under the default settings. -/
theorem c6_witness :
    login verify_password settings 1000 ⟨"a@x.com", "alice", "pw1"⟩ wDb
      = .ok { access_token :=
                create_access_token settings.SECRET_KEY wAlice.email
                  (settings.ACCESS_TOKEN_EXPIRE_MINUTES * 60) 1000,
              token_type := "bearer" } ∧
    settings.ACCESS_TOKEN_EXPIRE_MINUTES = 30 :=
  ⟨(c6_login_success_token verify_password settings 1000
      ⟨"a@x.com", "alice", "pw1"⟩ wDb wAlice (by decide) (by decide)).1,
   (c6_login_success_token verify_password settings 1000
      ⟨"a@x.com", "alice", "pw1"⟩ wDb wAlice (by decide) (by decide)).2.2.2⟩

/-- C7: for every subject, secret, issue time and positive ttl, decoding a
freshly issued token before its expiry succeeds and returns the claim set
with `sub` equal to the original subject. -/
theorem c7_decode_issue_roundtrip
    (secret sub : String) (ttl now : Nat) (h : 0 < ttl) :
    decode_token secret now (.signed (create_access_token secret sub ttl now))
      = .ok { sub := sub, iat := now, exp := now + ttl } := by
  simp [decode_token, create_access_token, Nat.lt_add_of_pos_right h]

/-- C7 witness: the round trip at a concrete subject and ttl. -/
theorem c7_witness :
    decode_token "sec" 50 (.signed (create_access_token "sec" "a@x.com" 60 50))
      = .ok { sub := "a@x.com", iat := 50, exp := 110 } :=
  c7_decode_issue_roundtrip "sec" "a@x.com" 60 50 (by decide)

/-- C8: a registration that passes both duplicate checks on a healthy fresh
session persists exactly one new record, whose stored password field is the
hash of the plaintext and whose active flag is true; moreover the call
depends on the plaintext only through its hash — any plaintext with the same
hash yields the identical result — so the plaintext itself is never
persisted. -/
theorem c8_register_persists_hash
    (hashFn : String → HashValue) (user : UserCreate) (db : Session)
    (h1 : get_user_by_email db user.email = none)
    (h2 : get_user_by_username db user.username = none)
    (hf : db.commitFault = none) (hp : db.pending = []) :
    ∃ u : UserModel,
      (register_user hashFn user db).1 = .ok u ∧
      u.hashed_password = hashFn user.password ∧
      u.is_active = true ∧
      (register_user hashFn user db).2.rows = db.rows ++ [u] ∧
      (∀ pw' : String, hashFn pw' = hashFn user.password →
        register_user hashFn
            { email := user.email, username := user.username, password := pw' }
            db
          = register_user hashFn user db) := by
  refine ⟨{ id := db.nextId, email := user.email, username := user.username,
            hashed_password := hashFn user.password, is_active := true },
          ?_, rfl, rfl, ?_, ?_⟩
  · simp [register_user, h1, h2, create_user, Session.add, Session.commit, hf]
  · simp [register_user, h1, h2, create_user, Session.add, Session.commit, hf,
      hp]
  · intro pw' hpw
    simp [register_user, h1, h2, create_user, Session.add, hpw]

/-- C8 witness: registering a fresh user on the healthy empty session stores
the hash of "pw9" and an active flag of true. -/
theorem c8_witness :
    ∃ u : UserModel,
      (register_user (get_password_hash 5) ⟨"c@x.com", "carol", "pw9"⟩
          wDbEmpty).1 = .ok u ∧
      u.hashed_password = get_password_hash 5 "pw9" ∧
      u.is_active = true ∧
      (register_user (get_password_hash 5) ⟨"c@x.com", "carol", "pw9"⟩
          wDbEmpty).2.rows = wDbEmpty.rows ++ [u] :=
  match c8_register_persists_hash (get_password_hash 5)
      ⟨"c@x.com", "carol", "pw9"⟩ wDbEmpty (by decide) (by decide) rfl rfl with
  | ⟨u, hok, hh, ha, hr, _⟩ => ⟨u, hok, hh, ha, hr⟩

/-- C9: every request body run through the scoped session of
`DatabaseManager.get_db` ends with the session closed — both when the body
finishes with a result and when it finishes with an error, the `finally`
block has run. -/
theorem c9_session_released_every_path {α : Type}
    (db0 : Session) (body : Session → Except ApiError α × Session) :
    ((get_db db0 body).2).closed = true ∧
    (∀ e s, body db0 = (.error e, s) →
      get_db db0 body = (.error e, { sess := s, closed := true })) ∧
    (∀ r s, body db0 = (.ok r, s) →
      get_db db0 body = (.ok r, { sess := s, closed := true })) := by
  refine ⟨?_, ?_, ?_⟩
  · rcases hb : body db0 with ⟨res, s1⟩
    cases res <;> simp [get_db, hb]
  · intro e s hb
    simp [get_db, hb]
  · intro r s hb
    simp [get_db, hb]

/-- C9 witness: the theorem applied to the register flow on an error path (a
duplicate email): the session handle still ends closed. -/
theorem c9_witness :
    get_db wDb (register_user (get_password_hash 0)
        ⟨"a@x.com", "alice", "pw2"⟩)
      = (.error { statusCode := 400, detail := "Email ya registrado",
                  headers := [] },
         { sess := wDb, closed := true }) :=
  (c9_session_released_every_path wDb
      (register_user (get_password_hash 0) ⟨"a@x.com", "alice", "pw2"⟩)).2.1
    { statusCode := 400, detail := "Email ya registrado", headers := [] }
    wDb (by rfl)

/-- C10: the caller-visible bodies of successful `/register` and `/users/me`
responses are built through `toUserResponse`, whose output holds only email,
username, id and the active flag; in particular the response of
`read_users_me` is unchanged under any change of the stored password hash, so
the hash never appears in a public response. -/
theorem c10_response_excludes_hash :
    (∀ (u : UserModel) (hv : HashValue),
      read_users_me { u with hashed_password := hv } = read_users_me u) ∧
    (∀ (hashFn : String → HashValue) (user : UserCreate) (db : Session)
        (r : UserResponse) (s : Session),
      register_response hashFn user db = (Except.ok r, s) →
      ∃ u, (register_user hashFn user db).1 = Except.ok u ∧
        r = toUserResponse u) ∧
    (∀ (secret : String) (now : Nat) (w : TokenWire) (db : Session)
        (r : UserResponse),
      me_response secret now w db = Except.ok r →
      ∃ u, get_current_user secret now w db = Except.ok u ∧
        r = toUserResponse u) := by
  refine ⟨?_, ?_, ?_⟩
  · intro u hv
    rfl
  · intro hashFn user db r s hreg
    rcases hu : register_user hashFn user db with ⟨res, s1⟩
    cases res with
    | error e => simp [register_response, hu, Except.map] at hreg
    | ok u =>
      refine ⟨u, by simp [hu], ?_⟩
      simp [register_response, hu, Except.map] at hreg
      exact hreg.1.symm
  · intro secret now w db r hme
    cases hu : get_current_user secret now w db with
    | error e => simp [me_response, hu, Except.map] at hme
    | ok u =>
      refine ⟨u, rfl, ?_⟩
      simp [me_response, hu, Except.map] at hme
      exact hme.symm

/-- The user record persisted by the C10 witness registration. -/
def wCarol : UserModel :=
  { id := 1, email := "c@x.com", username := "carol",
    hashed_password := get_password_hash 5 "pw9", is_active := true }

/-- The session after the C10 witness registration. -/
def wDbAfter : Session :=
  { rows := [wCarol], pending := [], nextId := 2, commitFault := none }

/-- C10 witness: the theorem applied to a concrete user (the `/users/me`
response ignores a changed hash) and to a concrete successful registration
(its response is the `toUserResponse` image of the stored record). -/
theorem c10_witness :
    read_users_me { wAlice with hashed_password := get_password_hash 9 "zz" }
      = read_users_me wAlice ∧
    ∃ u, (register_user (get_password_hash 5) ⟨"c@x.com", "carol", "pw9"⟩
        wDbEmpty).1 = Except.ok u ∧
      ({ email := "c@x.com", username := "carol", id := 1,
         is_active := true } : UserResponse) = toUserResponse u :=
  ⟨c10_response_excludes_hash.1 wAlice (get_password_hash 9 "zz"),
   c10_response_excludes_hash.2.1 (get_password_hash 5)
     ⟨"c@x.com", "carol", "pw9"⟩ wDbEmpty
     { email := "c@x.com", username := "carol", id := 1, is_active := true }
     wDbAfter (by rfl)⟩

end ApiRest
